import Mathlib

/-!
# Verification of `local_ss_plotting/make_plots.py`

A shallow embedding of the two plotting helpers of the repository,
`plot_bar_graph` and `plot`, together with proofs about their layout
arithmetic, validation behaviour, jitter policy and error rendering.

Numeric values are modelled by `ℚ`; the external drawing library
(matplotlib / `plot_utils` / `colors`) is modelled by an effect trace:
each drawing or axis-configuration call the functions perform is recorded
as one `Effect` value, in program order.  Raising a `ValueError` is
modelled by returning `Except.error`; the trace accumulated before the
raise is returned alongside, so that "no drawing happened before the
error" is a provable statement rather than a modelling artefact.
-/

namespace MakePlots

/-- The validation failures raised by `make_plots.py`, classified by the
taxonomy of the spec: `EmptySeries`, `LengthMismatch` (tagged with the name of
the offending argument list) and `InvalidLabelUsage`. -/
inductive PlotError where
  | emptySeries : PlotError
  | lengthMismatch : String → PlotError
  | invalidLabelUsage : PlotError
  | numpyShapeMismatch : PlotError
  deriving DecidableEq, Repr

/-- `true` exactly on the `LengthMismatch` class of errors. -/
def PlotError.isLengthMismatch : PlotError → Bool
  | .lengthMismatch _ => true
  | _ => false

/-- One external drawing / axis call performed by the plotting functions.
`yAxis = true` records that the call targeted the y axis (the
`horizontal` bar layout, which swaps the categorical axis). -/
inductive Effect where
  | subplots : Effect
  | bar (horizontal : Bool) (idx : ℕ) (pos : List ℚ) (width : ℚ) : Effect
  | setTicks (yAxis : Bool) (ticks : List ℚ) : Effect
  | setLims (yAxis : Bool) (lims : List ℚ) : Effect
  | plotLine (idx : ℕ) (xvals yvals : List ℚ) : Effect
  | shadedError (idx : ℕ) (xvals yvals : List ℚ) : Effect
  | errorbar (idx : ℕ) (xvals yvals : List ℚ) : Effect
  deriving DecidableEq, Repr

/-- Arguments of `plot_bar_graph` that influence the modelled behaviour
(the remaining parameters — labels, titles, fonts, legend, save file —
only feed opaque styling calls).  Defaults follow the Python signature:
`series_padding=0.0`, `category_padding=0.25`, `barwidth=0.35`,
`xpadding=0.`, `stacked=False`, `horizontal=False`,
`category_ticks=True`, `series_use_labels=False`. -/
structure BarArgs where
  series : Option (List (List ℚ))
  series_colors : List String
  series_labels : Option (List (Option String)) := none
  series_color_emphasis : Option (List Bool) := none
  series_errs : Option (List (Option (List ℚ))) := none
  series_err_colors : Option (List String) := none
  series_padding : ℚ := 0
  series_use_labels : Bool := false
  category_ticks : Bool := true
  category_padding : ℚ := 1/4
  barwidth : ℚ := 7/20
  xpadding : ℚ := 0
  stacked : Bool := false
  horizontal : Bool := false

/-- The validation prefix of `plot_bar_graph` (make_plots.py lines 61-93).
Checks run in source order; the first failing check determines the error.
`None` attribute lists are first replaced by their defaults, exactly as
the Python assigns them, so their length checks then trivially pass. -/
def validate_bar (a : BarArgs) : Except PlotError (List (List ℚ)) :=
  match a.series with
  | none => .error .emptySeries
  | some s =>
    if s.length = 0 then .error .emptySeries else
    let num_series := s.length
    if (a.series_colors.length ≠ num_series) then
      .error (.lengthMismatch "series_colors") else
    let series_labels := a.series_labels.getD (List.replicate num_series none)
    if series_labels.length ≠ num_series then
      .error (.lengthMismatch "series_labels") else
    let series_errs := a.series_errs.getD (List.replicate num_series none)
    if series_errs.length ≠ num_series then
      .error (.lengthMismatch "series_errs") else
    let series_err_colors := a.series_err_colors.getD (List.replicate num_series "black")
    if series_err_colors.length ≠ num_series then
      .error (.lengthMismatch "series_err_colors") else
    let series_color_emphasis := a.series_color_emphasis.getD (List.replicate num_series false)
    if series_color_emphasis.length ≠ num_series then
      .error (.lengthMismatch "series_color_emphasis") else
    if a.series_use_labels ∧ (s.headD []).length > 1 then
      .error .invalidLabelUsage
    else .ok s

/-- `spacing = category_padding * barwidth` (make_plots.py line 101). -/
def spacing (category_padding barwidth : ℚ) : ℚ := category_padding * barwidth

/-- `category_width = spacing + num_series * barwidth`, overwritten with
`spacing + barwidth` when `stacked` (make_plots.py lines 103-105). -/
def category_width (stacked : Bool) (category_padding barwidth : ℚ) (num_series : ℕ) : ℚ :=
  if stacked then spacing category_padding barwidth + barwidth
  else spacing category_padding barwidth + (num_series : ℚ) * barwidth

/-- `index = numpy.array(range(num_categories)) * category_width + xpadding`
(make_plots.py line 106): the base coordinate of each category. -/
def barIndex (num_categories : ℕ) (cw xpadding : ℚ) : List ℚ :=
  (List.range num_categories).map (fun c : ℕ => (c : ℚ) * cw + xpadding)

/-- `offset = idx * (barwidth + series_padding)`, overwritten with `0.`
when `stacked` (make_plots.py lines 109-111). -/
def barOffset (stacked : Bool) (idx : ℕ) (barwidth series_padding : ℚ) : ℚ :=
  if stacked then 0 else (idx : ℚ) * (barwidth + series_padding)

/-- The tick positions chosen by `plot_bar_graph` (make_plots.py lines
149-166): per-series ticks when `series_use_labels`, otherwise per-category
ticks `index + (num_series/2)*barwidth` (grouped) or `index + 0.5*barwidth`
(stacked) when `category_ticks`, otherwise the empty tick list. -/
def barTicks (a : BarArgs) (num_series num_categories : ℕ) (cw : ℚ) : List ℚ :=
  if a.series_use_labels then
    (List.range num_series).map
      (fun i : ℕ => a.xpadding + (i : ℚ) * (a.barwidth + a.series_padding) + (1/2) * a.barwidth)
  else if a.category_ticks then
    if ¬ a.stacked then
      (barIndex num_categories cw a.xpadding).map
        (fun v => v + ((num_series : ℚ) / 2) * a.barwidth)
    else
      (barIndex num_categories cw a.xpadding).map (fun v => v + (1/2) * a.barwidth)
  else []

/-- The categorical-axis limits (make_plots.py lines 185-189). -/
def barLims (a : BarArgs) (num_series num_categories : ℕ) (cw : ℚ) : List ℚ :=
  [0, 2 * a.xpadding
      + (num_categories : ℚ) * (cw + ((num_series : ℚ) - 1) * a.series_padding)
      - spacing a.category_padding a.barwidth]

/-- Shallow embedding of `plot_bar_graph`: validation first (any failure
returns the error with an empty effect trace, since in the source every
`raise` precedes `plt.subplots()`); then figure creation, one `bar`/`barh`
call per series at positions `index + offset`, the tick assignment and the
categorical-axis limit assignment, recorded in program order. -/
def plot_bar_graph (a : BarArgs) : List Effect × Except PlotError Unit :=
  match validate_bar a with
  | .error e => ([], .error e)
  | .ok s =>
    let num_series := s.length
    let num_categories := (s.headD []).length
    let cw := category_width a.stacked a.category_padding a.barwidth num_series
    let index := barIndex num_categories cw a.xpadding
    let bars := (List.range num_series).map (fun idx =>
      Effect.bar a.horizontal idx
        (index.map (fun v => v + barOffset a.stacked idx a.barwidth a.series_padding))
        a.barwidth)
    ([Effect.subplots] ++ bars
      ++ [Effect.setTicks a.horizontal (barTicks a num_series num_categories cw)]
      ++ [Effect.setLims a.horizontal (barLims a num_series num_categories cw)],
     .ok ())

/-- Arguments of `plot` that influence the modelled behaviour.  Defaults
follow the Python signature: `fill_error=True`, `jitter_x=-1.`,
`jitter_y=-1.`. -/
structure PlotArgs where
  series : Option (List (List ℚ × List ℚ))
  series_colors : List String
  series_color_emphasis : Option (List Bool) := none
  series_labels : Option (List (Option String)) := none
  series_errs : Option (List (Option (List ℚ))) := none
  series_err_colors : Option (List String) := none
  fill_error : Bool := true
  jitter_x : ℚ := -1
  jitter_y : ℚ := -1
  plot_markers : Option (List String) := none
  line_styles : Option (List String) := none

/-- The validation prefix of `plot` (make_plots.py lines 276-312), in
source order, extended past the bar-graph checks with `plot_markers` and
`line_styles`. -/
def validate_plot (a : PlotArgs) : Except PlotError (List (List ℚ × List ℚ)) :=
  match a.series with
  | none => .error .emptySeries
  | some s =>
    if s.length = 0 then .error .emptySeries else
    let num_series := s.length
    if (a.series_colors.length ≠ num_series) then
      .error (.lengthMismatch "series_colors") else
    let series_labels := a.series_labels.getD (List.replicate num_series none)
    if series_labels.length ≠ num_series then
      .error (.lengthMismatch "series_labels") else
    let series_errs := a.series_errs.getD (List.replicate num_series none)
    if series_errs.length ≠ num_series then
      .error (.lengthMismatch "series_errs") else
    let series_err_colors := a.series_err_colors.getD (List.replicate num_series "black")
    if series_err_colors.length ≠ num_series then
      .error (.lengthMismatch "series_err_colors") else
    let series_color_emphasis := a.series_color_emphasis.getD (List.replicate num_series false)
    if series_color_emphasis.length ≠ num_series then
      .error (.lengthMismatch "series_color_emphasis") else
    let plot_markers := a.plot_markers.getD (List.replicate num_series "None")
    if plot_markers.length ≠ num_series then
      .error (.lengthMismatch "plot_markers") else
    let line_styles := a.line_styles.getD (List.replicate num_series "-")
    if line_styles.length ≠ num_series then
      .error (.lengthMismatch "line_styles")
    else .ok s

/-- Model of the external call `numpy.random.normal(loc, scale, size=size)`
for a one-dimensional `loc` array: draws `size` samples, the `i`-th
distributed normally around the broadcast of `loc`, i.e.
`loc[i] + scale * z i` where `z i` is the `i`-th standard-normal draw of
this call.  numpy broadcasting accepts `loc` of length `size` (elementwise)
or of length 1 (replicated); any other length raises, modelled by `none`. -/
def numpy_random_normal (loc : List ℚ) (scale : ℚ) (size : ℕ) (z : ℕ → ℚ) :
    Option (List ℚ) :=
  if loc.length = size then
    some ((List.range size).map (fun i => loc.getD i 0 + scale * z i))
  else if loc.length = 1 then
    some ((List.range size).map (fun i => loc.headD 0 + scale * z i))
  else none

/-- The jitter block of `plot` (make_plots.py lines 323-335): the four
mutually exclusive cases on `jitter_x != -1` / `jitter_y != -1`.  The x
samples are drawn with `size=len(yvals)` and the y samples with
`size=len(xvals)`, exactly as in the source; `zx`/`zy` are the
standard-normal draws consumed by the respective sampling call. -/
def jitterVals (jx jy : ℚ) (xvals yvals : List ℚ) (zx zy : ℕ → ℚ) :
    Option (List ℚ × List ℚ) :=
  if jx ≠ -1 ∧ jy = -1 then
    (numpy_random_normal xvals jx yvals.length zx).map (fun xs => (xs, yvals))
  else if jx = -1 ∧ jy ≠ -1 then
    (numpy_random_normal yvals jy xvals.length zy).map (fun ys => (xvals, ys))
  else if jx ≠ -1 ∧ jy ≠ -1 then
    match numpy_random_normal xvals jx yvals.length zx,
          numpy_random_normal yvals jy xvals.length zy with
    | some xs, some ys => some (xs, ys)
    | _, _ => none
  else some (xvals, yvals)

/-- One iteration of the series loop of `plot` (make_plots.py lines
318-353): jitter the coordinates, draw the line, then — only when the
series has error values — draw exactly one error rendering, a shaded band
when `fill_error` and discrete error bars otherwise. -/
def plot_series_effects (fill_error : Bool) (jx jy : ℚ) (idx : ℕ)
    (sv : List ℚ × List ℚ) (err : Option (List ℚ)) (zx zy : ℕ → ℚ) :
    Option (List Effect) :=
  (jitterVals jx jy sv.1 sv.2 zx zy).map (fun xy =>
    Effect.plotLine idx xy.1 xy.2 ::
      (match err with
       | none => []
       | some _ =>
         if fill_error then [Effect.shadedError idx xy.1 xy.2]
         else [Effect.errorbar idx xy.1 xy.2]))

/-- The series loop of `plot`, threading the series index.  A numpy
broadcast failure inside an iteration aborts the loop with the effects of
the completed iterations, like the exception it models. -/
def plot_loop (fill_error : Bool) (jx jy : ℚ) (z : ℕ → Bool → ℕ → ℚ) :
    List ((List ℚ × List ℚ) × Option (List ℚ)) → ℕ → List Effect × Except PlotError Unit
  | [], _ => ([], .ok ())
  | p :: rest, idx =>
    match plot_series_effects fill_error jx jy idx p.1 p.2 (z idx false) (z idx true) with
    | none => ([], .error .numpyShapeMismatch)
    | some es =>
      let r := plot_loop fill_error jx jy z rest (idx + 1)
      (es ++ r.1, r.2)

/-- Shallow embedding of `plot`: validation first (any failure returns an
empty trace, as every `raise` precedes `plt.subplots()`), then figure
creation and the per-series loop.  `z s ax i` is the `i`-th standard-normal
draw of the sampling call for series `s` on axis `ax` (`false` = x). -/
def plot (a : PlotArgs) (z : ℕ → Bool → ℕ → ℚ) :
    List Effect × Except PlotError Unit :=
  match validate_plot a with
  | .error e => ([], .error e)
  | .ok s =>
    let num_series := s.length
    let series_errs := a.series_errs.getD (List.replicate num_series none)
    let r := plot_loop a.fill_error a.jitter_x a.jitter_y z (s.zip series_errs) 0
    (Effect.subplots :: r.1, r.2)

/-- The series an effect belongs to: the index carried by the per-series
drawing calls of `plot`, `none` for the global calls. -/
def Effect.tag : Effect → Option ℕ
  | .plotLine i _ _ => some i
  | .shadedError i _ _ => some i
  | .errorbar i _ _ => some i
  | _ => none

/-- `true` exactly on the axis-limit assignment effect. -/
def Effect.isSetLims : Effect → Bool
  | .setLims _ _ => true
  | _ => false

/-- `true` exactly on the tick assignment effect. -/
def Effect.isSetTicks : Effect → Bool
  | .setTicks _ _ => true
  | _ => false

/-- `true` exactly on the line-drawing effect of series `i`. -/
def Effect.isLineOf (i : ℕ) : Effect → Bool
  | .plotLine j _ _ => j = i
  | _ => false

/-- `true` exactly on the two error-rendering effects of series `i`. -/
def Effect.isErrOf (i : ℕ) : Effect → Bool
  | .shadedError j _ _ => j = i
  | .errorbar j _ _ => j = i
  | _ => false

/-- Modelled from the claim wording for comparison with the code: in
grouped layout the arithmetic midpoint of the bar group of a category with
base coordinate `base`, `n` series, bar width `w` and series padding `sp`:
the midpoint of the span from the left edge of the first bar (`base`) to
the right edge of the last bar (`base + (n-1)*(w+sp) + w`), including the
series padding between bars. -/
def spec_groupMidpoint (base : ℚ) (n : ℕ) (w sp : ℚ) : ℚ :=
  (base + (base + ((n : ℚ) - 1) * (w + sp) + w)) / 2

/-- Some provided per-series attribute list of `plot_bar_graph` disagrees
with the series count `n`. -/
def barLengthMismatch (a : BarArgs) (n : ℕ) : Prop :=
  a.series_colors.length ≠ n ∨
  (∃ v, a.series_labels = some v ∧ v.length ≠ n) ∨
  (∃ v, a.series_errs = some v ∧ v.length ≠ n) ∨
  (∃ v, a.series_err_colors = some v ∧ v.length ≠ n) ∨
  (∃ v, a.series_color_emphasis = some v ∧ v.length ≠ n)

/-- Some provided per-series attribute list of `plot` disagrees with the
series count `n`. -/
def plotLengthMismatch (b : PlotArgs) (n : ℕ) : Prop :=
  b.series_colors.length ≠ n ∨
  (∃ v, b.series_labels = some v ∧ v.length ≠ n) ∨
  (∃ v, b.series_errs = some v ∧ v.length ≠ n) ∨
  (∃ v, b.series_err_colors = some v ∧ v.length ≠ n) ∨
  (∃ v, b.series_color_emphasis = some v ∧ v.length ≠ n) ∨
  (∃ v, b.plot_markers = some v ∧ v.length ≠ n) ∨
  (∃ v, b.line_styles = some v ∧ v.length ≠ n)

/-- The example of §8 of the spec: two series of two categories each, all
other parameters at their defaults. -/
def exBar : BarArgs :=
  { series := some [[1, 2], [3, 4]], series_colors := ["red", "blue"] }

/-- Two series, one category, unit bar width, unit series padding and no
category padding: a grouped call whose tick is not the midpoint of the
category span once the series padding is taken into account. -/
def cexTick : BarArgs :=
  { series := some [[1], [2]], series_colors := ["red", "blue"],
    series_padding := 1, category_padding := 0, barwidth := 1 }

/-- Per-series labelling requested while the second series has two
categories but the first has one. -/
def cexLabel : BarArgs :=
  { series := some [[1], [10, 20]], series_colors := ["red", "blue"],
    series_use_labels := true }

/-- Per-series labelling requested while the first series has two
categories. -/
def exLabelErr : BarArgs :=
  { series := some [[1, 2], [3, 4]], series_colors := ["red", "blue"],
    series_use_labels := true }

/-- A bar call whose colour list is shorter than its series list. -/
def exBarMismatch : BarArgs :=
  { series := some [[1]], series_colors := [] }

/-- A line call whose marker list is shorter than its series list. -/
def exPlotMismatch : PlotArgs :=
  { series := some [([1], [1])], series_colors := ["red"],
    plot_markers := some [] }

/-- A line call with one series and every optional argument defaulted. -/
def exPlot : PlotArgs :=
  { series := some [([1, 2], [3, 4])], series_colors := ["red"] }

/-- A line call with zero-variance x jitter. -/
def exPlotJitter0 : PlotArgs :=
  { series := some [([1, 2], [3, 4])], series_colors := ["red"],
    jitter_x := 0 }

/-- A line call with error values on its single series. -/
def exPlotErr : PlotArgs :=
  { series := some [([1, 2], [3, 4])], series_colors := ["red"],
    series_errs := some [some [1, 1]] }

/-- A degenerate noise source: every standard-normal draw is 0. -/
def z0 : ℕ → Bool → ℕ → ℚ := fun _ _ _ => 0

/-- A degenerate per-call noise stream. -/
def zstream : ℕ → ℚ := fun _ => 0

/-- Reading the `c`-th element of a tabulated list. -/
theorem getD_range_map (f : ℕ → ℚ) (m c : ℕ) (h : c < m) :
    ((List.range m).map f).getD c 0 = f c := by
  rw [List.getD_eq_getElem?_getD]
  simp [List.getElem?_range h]

/-- A successful numpy draw returns exactly `size` samples. -/
theorem numpy_random_normal_length (loc : List ℚ) (scale : ℚ) (size : ℕ)
    (z : ℕ → ℚ) (r : List ℚ)
    (h : numpy_random_normal loc scale size z = some r) : r.length = size := by
  unfold numpy_random_normal at h
  split_ifs at h
  · injection h with h; subst h; simp
  · injection h with h; subst h; simp

/-- A zero-variance draw around a `loc` array of full length returns `loc`
itself: each sample is `loc[i] + 0 * z i = loc[i]`. -/
theorem numpy_random_normal_zero (loc : List ℚ) (z : ℕ → ℚ) :
    numpy_random_normal loc 0 loc.length z = some loc := by
  unfold numpy_random_normal
  rw [if_pos rfl]
  refine congrArg some (List.ext_getElem (by simp) ?_)
  intro i h1 h2
  simp only [List.getElem_map, List.getElem_range]
  rw [List.getD_eq_getElem?_getD, List.getElem?_eq_getElem h2]
  simp

/-- The effect trace of a validated `plot_bar_graph` call, spelled out. -/
theorem plot_bar_graph_trace (a : BarArgs) (s : List (List ℚ))
    (h : validate_bar a = .ok s) :
    (plot_bar_graph a).1 =
      Effect.subplots ::
        ((List.range s.length).map (fun idx =>
          Effect.bar a.horizontal idx
            ((barIndex (s.headD []).length
                (category_width a.stacked a.category_padding a.barwidth s.length)
                a.xpadding).map
              (fun v => v + barOffset a.stacked idx a.barwidth a.series_padding))
            a.barwidth))
        ++ [Effect.setTicks a.horizontal
              (barTicks a s.length (s.headD []).length
                (category_width a.stacked a.category_padding a.barwidth s.length)),
            Effect.setLims a.horizontal
              (barLims a s.length (s.headD []).length
                (category_width a.stacked a.category_padding a.barwidth s.length))] := by
  unfold plot_bar_graph
  rw [h]
  simp

/-- C1: for every valid call to `plot_bar_graph` with `N` series, bar width
`w`, category padding `p`, series padding `sp` and x padding `x0`: the
category spacing equals `p*w`; the category width equals `p*w + N*w` in
grouped layout and `p*w + w` in stacked layout regardless of `N`; and each
series `i` is drawn at positions whose `c`-th entry is the category base
`c * category_width + x0` plus the series offset, `i * (w + sp)` in grouped
layout and `0` in stacked layout. -/
theorem bar_layout_positions (a : BarArgs) (s : List (List ℚ))
    (h : validate_bar a = .ok s) :
    spacing a.category_padding a.barwidth = a.category_padding * a.barwidth ∧
    category_width a.stacked a.category_padding a.barwidth s.length =
      (if a.stacked then a.category_padding * a.barwidth + a.barwidth
       else a.category_padding * a.barwidth + (s.length : ℚ) * a.barwidth) ∧
    ∀ i, i < s.length →
      Effect.bar a.horizontal i
        ((List.range (s.headD []).length).map (fun c : ℕ =>
          ((c : ℚ) * category_width a.stacked a.category_padding a.barwidth s.length
             + a.xpadding)
           + (if a.stacked then 0
              else (i : ℚ) * (a.barwidth + a.series_padding))))
        a.barwidth ∈ (plot_bar_graph a).1 := by
  refine ⟨rfl, ?_, ?_⟩
  · unfold category_width spacing
    split_ifs <;> ring
  · intro i hi
    rw [plot_bar_graph_trace a s h]
    refine List.mem_cons_of_mem _ (List.mem_append_left _ ?_)
    refine List.mem_map.mpr ⟨i, List.mem_range.mpr hi, ?_⟩
    have hmap :
        (barIndex (s.headD []).length
            (category_width a.stacked a.category_padding a.barwidth s.length)
            a.xpadding).map
          (fun v => v + barOffset a.stacked i a.barwidth a.series_padding)
        = (List.range (s.headD []).length).map (fun c : ℕ =>
            ((c : ℚ) * category_width a.stacked a.category_padding a.barwidth s.length
               + a.xpadding)
             + (if a.stacked then 0
                else (i : ℚ) * (a.barwidth + a.series_padding))) := by
      simp [barIndex, barOffset, List.map_map, Function.comp_def]
    rw [hmap]

/-- Witness for C1 at the §8 example call. -/
theorem bar_layout_positions_witness :
    spacing exBar.category_padding exBar.barwidth
        = exBar.category_padding * exBar.barwidth ∧
    category_width exBar.stacked exBar.category_padding exBar.barwidth
        [[(1 : ℚ), 2], [3, 4]].length =
      (if exBar.stacked then
        exBar.category_padding * exBar.barwidth + exBar.barwidth
       else exBar.category_padding * exBar.barwidth
         + ([[(1 : ℚ), 2], [3, 4]].length : ℚ) * exBar.barwidth) ∧
    ∀ i, i < [[(1 : ℚ), 2], [3, 4]].length →
      Effect.bar exBar.horizontal i
        ((List.range ([[(1 : ℚ), 2], [3, 4]].headD []).length).map (fun c : ℕ =>
          ((c : ℚ) * category_width exBar.stacked exBar.category_padding
              exBar.barwidth [[(1 : ℚ), 2], [3, 4]].length
             + exBar.xpadding)
           + (if exBar.stacked then 0
              else (i : ℚ) * (exBar.barwidth + exBar.series_padding))))
        exBar.barwidth ∈ (plot_bar_graph exBar).1 :=
  bar_layout_positions exBar [[1, 2], [3, 4]] rfl

/-- C4: every valid `plot_bar_graph` call performs exactly one
categorical-axis limit assignment, to the interval
`[0, 2*xpadding + num_categories*(category_width + (num_series-1)*series_padding) - spacing]`,
on the y axis when `horizontal` and on the x axis otherwise. -/
theorem bar_axis_limits (a : BarArgs) (s : List (List ℚ))
    (h : validate_bar a = .ok s) :
    (plot_bar_graph a).1.filter Effect.isSetLims =
      [Effect.setLims a.horizontal
        [0, 2 * a.xpadding
            + (((s.headD []).length : ℕ) : ℚ) *
              (category_width a.stacked a.category_padding a.barwidth s.length
                + ((s.length : ℚ) - 1) * a.series_padding)
            - spacing a.category_padding a.barwidth]] := by
  rw [plot_bar_graph_trace a s h]
  simp [List.filter_append, Effect.isSetLims, barLims, List.filter_map,
    Function.comp_def]

/-- Witness for C4 at the §8 example call. -/
theorem bar_axis_limits_witness :
    (plot_bar_graph exBar).1.filter Effect.isSetLims =
      [Effect.setLims exBar.horizontal
        [0, 2 * exBar.xpadding
            + ((([[(1 : ℚ), 2], [3, 4]].headD []).length : ℕ) : ℚ) *
              (category_width exBar.stacked exBar.category_padding exBar.barwidth
                  [[(1 : ℚ), 2], [3, 4]].length
                + (([[(1 : ℚ), 2], [3, 4]].length : ℚ) - 1) * exBar.series_padding)
            - spacing exBar.category_padding exBar.barwidth]] :=
  bar_axis_limits exBar [[1, 2], [3, 4]] rfl

/-- C2 (counterexample): in the grouped call `cexTick` (2 series, 1
category, bar width 1, series padding 1, no category padding, no x
padding) the code places the category tick at 1, while the arithmetic
midpoint of the span from the left edge of the first bar to the right edge
of the last bar, including the series padding between the bars, is 3/2. -/
theorem category_ticks_midpoint_cex :
    (plot_bar_graph cexTick).1.filter Effect.isSetTicks
        = [Effect.setTicks false [1]] ∧
    spec_groupMidpoint 0 2 1 1 = 3/2 ∧
    (1 : ℚ) ≠ 3/2 := by
  refine ⟨?_, by norm_num [spec_groupMidpoint], by norm_num⟩
  rw [plot_bar_graph_trace cexTick [[1], [2]] rfl]
  norm_num [cexTick, Effect.isSetTicks, List.range_succ, List.filter_append,
    barTicks, barIndex, category_width, spacing, barLims, Effect.isSetLims]

/-- C2 (amended): for every valid `plot_bar_graph` call with
`category_ticks` enabled and `series_use_labels` disabled, the tick list is
assigned to the categorical axis, has exactly one tick per category, and
the tick of category `c` sits at the category base plus `(N/2)*barwidth`
(grouped) or plus `barwidth/2`, the centre of the single bar (stacked);
in grouped layout this is the arithmetic midpoint of the bar group of the
category whenever `series_padding = 0` (its default). -/
theorem category_ticks_amended (a : BarArgs) (s : List (List ℚ))
    (h : validate_bar a = .ok s)
    (hct : a.category_ticks = true) (hul : a.series_use_labels = false) :
    Effect.setTicks a.horizontal
        (barTicks a s.length (s.headD []).length
          (category_width a.stacked a.category_padding a.barwidth s.length))
        ∈ (plot_bar_graph a).1 ∧
    (barTicks a s.length (s.headD []).length
        (category_width a.stacked a.category_padding a.barwidth s.length)).length
      = (s.headD []).length ∧
    (∀ c, c < (s.headD []).length →
      (barTicks a s.length (s.headD []).length
          (category_width a.stacked a.category_padding a.barwidth s.length)).getD c 0
        = ((c : ℚ) * category_width a.stacked a.category_padding a.barwidth s.length
            + a.xpadding)
          + (if a.stacked then (1/2) * a.barwidth
             else ((s.length : ℚ) / 2) * a.barwidth)) ∧
    (a.stacked = false → a.series_padding = 0 →
      ∀ c, c < (s.headD []).length →
        (barTicks a s.length (s.headD []).length
            (category_width a.stacked a.category_padding a.barwidth s.length)).getD c 0
          = spec_groupMidpoint
              ((c : ℚ) * category_width a.stacked a.category_padding a.barwidth s.length
                + a.xpadding)
              s.length a.barwidth 0) := by
  have hticks :
      barTicks a s.length (s.headD []).length
          (category_width a.stacked a.category_padding a.barwidth s.length)
        = (barIndex (s.headD []).length
            (category_width a.stacked a.category_padding a.barwidth s.length)
            a.xpadding).map
            (fun v => v
              + (if a.stacked then (1/2) * a.barwidth
                 else ((s.length : ℚ) / 2) * a.barwidth)) := by
    unfold barTicks
    rw [hul, hct]
    cases hst : a.stacked <;> rfl
  have hgetD : ∀ c, c < (s.headD []).length →
      (barTicks a s.length (s.headD []).length
          (category_width a.stacked a.category_padding a.barwidth s.length)).getD c 0
        = ((c : ℚ) * category_width a.stacked a.category_padding a.barwidth s.length
            + a.xpadding)
          + (if a.stacked then (1/2) * a.barwidth
             else ((s.length : ℚ) / 2) * a.barwidth) := by
    intro c hc
    rw [hticks]
    unfold barIndex
    rw [List.map_map]
    exact getD_range_map _ _ _ hc
  refine ⟨?_, ?_, hgetD, ?_⟩
  · rw [plot_bar_graph_trace a s h]
    exact List.mem_cons_of_mem _ (List.mem_append_right _ (List.mem_cons_self _ _))
  · rw [hticks]
    unfold barIndex
    simp
  · intro hst hsp c hc
    rw [hgetD c hc, hst]
    simp only [Bool.false_eq_true, if_false, spec_groupMidpoint]
    ring

/-- Witness for the amended C2 at the §8 example call: two ticks for the
two categories. -/
theorem category_ticks_amended_witness :
    (barTicks exBar [[(1 : ℚ), 2], [3, 4]].length
        ([[(1 : ℚ), 2], [3, 4]].headD []).length
        (category_width exBar.stacked exBar.category_padding exBar.barwidth
          [[(1 : ℚ), 2], [3, 4]].length)).length
      = ([[(1 : ℚ), 2], [3, 4]].headD []).length :=
  (category_ticks_amended exBar [[1, 2], [3, 4]] rfl rfl rfl).2.1

/-- C3 (counterexample): in the call `cexLabel`, `series_use_labels` is
requested and the second series has two categories, yet `plot_bar_graph`
raises nothing: the check only inspects the first series. -/
theorem label_check_cex :
    cexLabel.series_use_labels = true ∧
    (∃ sl ∈ cexLabel.series.getD [], sl.length > 1) ∧
    (plot_bar_graph cexLabel).2 = .ok () := by
  refine ⟨rfl, ⟨[10, 20], by norm_num [cexLabel], by norm_num⟩, rfl⟩

/-- C3 (amended): when the series list is non-empty and every per-series
attribute list passes its length check, `plot_bar_graph` raises
`InvalidLabelUsage` exactly when `series_use_labels` is requested and the
FIRST series has more than one category; the categories of the remaining
series are not inspected. -/
theorem label_check_amended (a : BarArgs) (s0 : List ℚ) (rest : List (List ℚ))
    (hs : a.series = some (s0 :: rest))
    (hc : a.series_colors.length = (s0 :: rest).length)
    (hl : (a.series_labels.getD (List.replicate (s0 :: rest).length none)).length
            = (s0 :: rest).length)
    (he : (a.series_errs.getD (List.replicate (s0 :: rest).length none)).length
            = (s0 :: rest).length)
    (hec : (a.series_err_colors.getD (List.replicate (s0 :: rest).length "black")).length
            = (s0 :: rest).length)
    (hem : (a.series_color_emphasis.getD (List.replicate (s0 :: rest).length false)).length
            = (s0 :: rest).length) :
    (plot_bar_graph a).2 = .error .invalidLabelUsage
      ↔ (a.series_use_labels = true ∧ s0.length > 1) := by
  have hv : validate_bar a =
      if a.series_use_labels ∧ s0.length > 1
      then .error .invalidLabelUsage else .ok (s0 :: rest) := by
    unfold validate_bar
    rw [hs]
    simp only [List.length_cons] at hl he hec hem
    simp [hc, hl, he, hec, hem]
  unfold plot_bar_graph
  rw [hv]
  split_ifs with hP
  · exact iff_of_true rfl hP
  · exact iff_of_false (by simp) hP

/-- Witness for the amended C3: labelling a first series with two
categories raises `InvalidLabelUsage`. -/
theorem label_check_amended_witness :
    (plot_bar_graph exLabelErr).2 = .error .invalidLabelUsage :=
  (label_check_amended exLabelErr [1, 2] [[3, 4]] rfl rfl rfl rfl rfl rfl).mpr
    ⟨rfl, by norm_num⟩

/-- The validation chain of `plot_bar_graph` on a non-empty series list,
with the defaulted attribute lists spelled out. -/
theorem validate_bar_eq (a : BarArgs) (sa : List (List ℚ))
    (ha : a.series = some sa) (ha0 : ¬ sa.length = 0) :
    validate_bar a =
      if a.series_colors.length ≠ sa.length then
        .error (.lengthMismatch "series_colors")
      else if (a.series_labels.getD (List.replicate sa.length none)).length
          ≠ sa.length then .error (.lengthMismatch "series_labels")
      else if (a.series_errs.getD (List.replicate sa.length none)).length
          ≠ sa.length then .error (.lengthMismatch "series_errs")
      else if (a.series_err_colors.getD (List.replicate sa.length "black")).length
          ≠ sa.length then .error (.lengthMismatch "series_err_colors")
      else if (a.series_color_emphasis.getD (List.replicate sa.length false)).length
          ≠ sa.length then .error (.lengthMismatch "series_color_emphasis")
      else if a.series_use_labels ∧ (sa.headD []).length > 1 then
        .error .invalidLabelUsage
      else .ok sa := by
  unfold validate_bar
  rw [ha]
  simp only [if_neg ha0]

/-- The validation chain of `plot` on a non-empty series list, with the
defaulted attribute lists spelled out. -/
theorem validate_plot_eq (b : PlotArgs) (sb : List (List ℚ × List ℚ))
    (hb : b.series = some sb) (hb0 : ¬ sb.length = 0) :
    validate_plot b =
      if b.series_colors.length ≠ sb.length then
        .error (.lengthMismatch "series_colors")
      else if (b.series_labels.getD (List.replicate sb.length none)).length
          ≠ sb.length then .error (.lengthMismatch "series_labels")
      else if (b.series_errs.getD (List.replicate sb.length none)).length
          ≠ sb.length then .error (.lengthMismatch "series_errs")
      else if (b.series_err_colors.getD (List.replicate sb.length "black")).length
          ≠ sb.length then .error (.lengthMismatch "series_err_colors")
      else if (b.series_color_emphasis.getD (List.replicate sb.length false)).length
          ≠ sb.length then .error (.lengthMismatch "series_color_emphasis")
      else if (b.plot_markers.getD (List.replicate sb.length "None")).length
          ≠ sb.length then .error (.lengthMismatch "plot_markers")
      else if (b.line_styles.getD (List.replicate sb.length "-")).length
          ≠ sb.length then .error (.lengthMismatch "line_styles")
      else .ok sb := by
  unfold validate_plot
  rw [hb]
  simp only [if_neg hb0]

/-- A mismatched attribute list makes the bar validation fail with some
`LengthMismatch` error. -/
theorem validate_bar_mismatch (a : BarArgs) (sa : List (List ℚ))
    (ha : a.series = some sa) (ha0 : sa ≠ [])
    (hma : barLengthMismatch a sa.length) :
    ∃ name, validate_bar a = .error (.lengthMismatch name) := by
  have hlen0 : ¬ sa.length = 0 := by simpa [List.length_eq_zero] using ha0
  rw [validate_bar_eq a sa ha hlen0]
  split_ifs with h1 h2 h3 h4 h5 h6 <;>
    first
      | exact ⟨_, rfl⟩
      | · exfalso
          rcases hma with hm | ⟨v, hv, hvl⟩ | ⟨v, hv, hvl⟩ | ⟨v, hv, hvl⟩ | ⟨v, hv, hvl⟩
          · exact h1 hm
          · rw [hv] at h2; simp at h2; exact hvl h2
          · rw [hv] at h3; simp at h3; exact hvl h3
          · rw [hv] at h4; simp at h4; exact hvl h4
          · rw [hv] at h5; simp at h5; exact hvl h5

/-- A mismatched attribute list makes the line validation fail with some
`LengthMismatch` error. -/
theorem validate_plot_mismatch (b : PlotArgs) (sb : List (List ℚ × List ℚ))
    (hb : b.series = some sb) (hb0 : sb ≠ [])
    (hmb : plotLengthMismatch b sb.length) :
    ∃ name, validate_plot b = .error (.lengthMismatch name) := by
  have hlen0 : ¬ sb.length = 0 := by simpa [List.length_eq_zero] using hb0
  rw [validate_plot_eq b sb hb hlen0]
  split_ifs with h1 h2 h3 h4 h5 h6 h7 <;>
    first
      | exact ⟨_, rfl⟩
      | · exfalso
          rcases hmb with hm | ⟨v, hv, hvl⟩ | ⟨v, hv, hvl⟩ | ⟨v, hv, hvl⟩
            | ⟨v, hv, hvl⟩ | ⟨v, hv, hvl⟩ | ⟨v, hv, hvl⟩
          · exact h1 hm
          · rw [hv] at h2; simp at h2; exact hvl h2
          · rw [hv] at h3; simp at h3; exact hvl h3
          · rw [hv] at h4; simp at h4; exact hvl h4
          · rw [hv] at h5; simp at h5; exact hvl h5
          · rw [hv] at h6; simp at h6; exact hvl h6
          · rw [hv] at h7; simp at h7; exact hvl h7

/-- C5: in both `plot_bar_graph` and `plot`, whenever a provided per-series
attribute list disagrees in length with the series list, the call fails
with a `LengthMismatch`-class error and the effect trace is empty: the
error is raised before figure creation or any drawing call. -/
theorem length_mismatch_failfast (a : BarArgs) (b : PlotArgs)
    (z : ℕ → Bool → ℕ → ℚ) (sa : List (List ℚ)) (sb : List (List ℚ × List ℚ))
    (ha : a.series = some sa) (ha0 : sa ≠ [])
    (hma : barLengthMismatch a sa.length)
    (hb : b.series = some sb) (hb0 : sb ≠ [])
    (hmb : plotLengthMismatch b sb.length) :
    ((∃ e, (plot_bar_graph a).2 = .error e ∧ e.isLengthMismatch = true)
        ∧ (plot_bar_graph a).1 = [])
      ∧ ((∃ e, (plot b z).2 = .error e ∧ e.isLengthMismatch = true)
        ∧ (plot b z).1 = []) := by
  obtain ⟨na, hva⟩ := validate_bar_mismatch a sa ha ha0 hma
  obtain ⟨nb, hvb⟩ := validate_plot_mismatch b sb hb hb0 hmb
  constructor
  · unfold plot_bar_graph
    rw [hva]
    exact ⟨⟨.lengthMismatch na, rfl, rfl⟩, rfl⟩
  · unfold plot
    rw [hvb]
    exact ⟨⟨.lengthMismatch nb, rfl, rfl⟩, rfl⟩

/-- Witness for C5: a bar call with an empty colour list and a line call
with an empty marker list, each against one series. -/
theorem length_mismatch_failfast_witness :
    ((∃ e, (plot_bar_graph exBarMismatch).2 = .error e ∧ e.isLengthMismatch = true)
        ∧ (plot_bar_graph exBarMismatch).1 = [])
      ∧ ((∃ e, (plot exPlotMismatch z0).2 = .error e ∧ e.isLengthMismatch = true)
        ∧ (plot exPlotMismatch z0).1 = []) :=
  length_mismatch_failfast exBarMismatch exPlotMismatch z0 [[1]] [([1], [1])]
    rfl (by simp) (Or.inl (by norm_num [exBarMismatch]))
    rfl (by simp)
    (Or.inr (Or.inr (Or.inr (Or.inr (Or.inr (Or.inl
      ⟨[], rfl, by norm_num⟩))))))

/-- The series loop of `plot` can only fail with the numpy broadcast
error, never with `EmptySeries`. -/
theorem plot_loop_ne_emptySeries (f : Bool) (jx jy : ℚ) (z : ℕ → Bool → ℕ → ℚ)
    (l : List ((List ℚ × List ℚ) × Option (List ℚ))) (idx : ℕ) :
    (plot_loop f jx jy z l idx).2 ≠ .error .emptySeries := by
  induction l generalizing idx with
  | nil => simp [plot_loop]
  | cons p rest ih =>
    rw [plot_loop]
    cases hpse : plot_series_effects f jx jy idx p.1 p.2 (z idx false) (z idx true) with
    | none => simp
    | some es => simpa using ih (idx + 1)

/-- C6: both `plot_bar_graph` and `plot` fail with `EmptySeries` exactly
when the series argument is unset (`None`) or the empty list; every
non-empty series list passes this check. -/
theorem emptySeries_iff (a : BarArgs) (b : PlotArgs) (z : ℕ → Bool → ℕ → ℚ) :
    ((plot_bar_graph a).2 = .error .emptySeries
        ↔ a.series = none ∨ a.series = some []) ∧
    ((plot b z).2 = .error .emptySeries
        ↔ b.series = none ∨ b.series = some []) := by
  constructor
  · cases ha : a.series with
    | none =>
      unfold plot_bar_graph validate_bar
      rw [ha]
      simp
    | some s =>
      cases s with
      | nil =>
        unfold plot_bar_graph validate_bar
        rw [ha]
        simp
      | cons s0 rest =>
        have hv := validate_bar_eq a (s0 :: rest) ha (by simp)
        unfold plot_bar_graph
        rw [hv]
        split_ifs <;> simp [ha]
  · cases hb : b.series with
    | none =>
      unfold plot validate_plot
      rw [hb]
      simp
    | some s =>
      cases s with
      | nil =>
        unfold plot validate_plot
        rw [hb]
        simp
      | cons p0 rest =>
        have hv := validate_plot_eq b (p0 :: rest) hb (by simp)
        unfold plot
        rw [hv]
        split_ifs <;> simp [hb]
        exact plot_loop_ne_emptySeries _ _ _ _ _ _

/-- Every effect of one series-loop iteration is tagged with that series
index. -/
theorem plot_series_effects_tag (f : Bool) (jx jy : ℚ) (idx : ℕ)
    (sv : List ℚ × List ℚ) (err : Option (List ℚ)) (zx zy : ℕ → ℚ)
    (es : List Effect)
    (h : plot_series_effects f jx jy idx sv err zx zy = some es) :
    ∀ e ∈ es, e.tag = some idx := by
  unfold plot_series_effects at h
  cases hj : jitterVals jx jy sv.1 sv.2 zx zy with
  | none => rw [hj] at h; simp at h
  | some xy =>
    rw [hj] at h
    simp only [Option.map_some'] at h
    injection h with h
    subst h
    intro e he
    rcases List.mem_cons.mp he with rfl | he
    · rfl
    · cases err with
      | none => simp at he
      | some ev =>
        cases f <;> simp at he <;> subst he <;> rfl

/-- Filtering the trace of the series loop by a predicate that only holds
on effects tagged with series `i` yields exactly the matching effects of
the iteration for series `i` (and nothing when `i` is out of range). -/
theorem plot_loop_filter (p : Effect → Bool) (i : ℕ)
    (hp : ∀ e, p e = true → e.tag = some i)
    (f : Bool) (jx jy : ℚ) (z : ℕ → Bool → ℕ → ℚ)
    (l : List ((List ℚ × List ℚ) × Option (List ℚ))) (start : ℕ)
    (hok : (plot_loop f jx jy z l start).2 = .ok ()) :
    (plot_loop f jx jy z l start).1.filter p =
      (if start ≤ i then
        (l[i - start]?).elim []
          (fun q => ((plot_series_effects f jx jy i q.1 q.2
              (z i false) (z i true)).getD []).filter p)
       else []) := by
  induction l generalizing start with
  | nil => simp [plot_loop]
  | cons q rest ih =>
    rw [plot_loop] at hok ⊢
    cases hpse : plot_series_effects f jx jy start q.1 q.2
        (z start false) (z start true) with
    | none =>
      rw [hpse] at hok
      simp at hok
    | some es =>
      rw [hpse] at hok
      dsimp only at hok ⊢
      rw [List.filter_append]
      have hes := plot_series_effects_tag f jx jy start q.1 q.2 _ _ es hpse
      by_cases hi : i = start
      · subst hi
        rw [ih (i + 1) hok, if_neg (by omega), if_pos (le_refl i)]
        simp [hpse]
      · have hfes : es.filter p = [] := by
          refine List.filter_eq_nil_iff.mpr ?_
          intro e he hpe
          have h1 := hes e he
          have h2 := hp e hpe
          rw [h1] at h2
          exact hi (Option.some.inj h2).symm
        rw [hfes, List.nil_append, ih (start + 1) hok]
        by_cases hle : start ≤ i
        · have h1 : start + 1 ≤ i := by omega
          rw [if_pos h1, if_pos hle]
          have hk : i - start = (i - (start + 1)) + 1 := by omega
          rw [hk, List.getElem?_cons_succ]
        · rw [if_neg (by omega), if_neg hle]

/-- A successful `plot` validation pins down the series argument, its
non-emptiness and the length of the defaulted error list. -/
theorem validate_plot_ok_facts (b : PlotArgs) (s : List (List ℚ × List ℚ))
    (hv : validate_plot b = .ok s) :
    b.series = some s ∧ ¬ s.length = 0 ∧
    (b.series_errs.getD (List.replicate s.length none)).length = s.length := by
  unfold validate_plot at hv
  cases hb : b.series with
  | none => rw [hb] at hv; exact absurd hv (by simp)
  | some t =>
    rw [hb] at hv
    dsimp only at hv
    by_cases h0 : t.length = 0
    · rw [if_pos h0] at hv; exact absurd hv (by simp)
    · rw [if_neg h0] at hv
      split_ifs at hv with h1 h2 h3 h4 h5 h6 h7; simp at hv
      subst hv
      exact ⟨rfl, h0, by omega⟩

/-- The shape of a successful `plot` call: figure creation then the series
loop. -/
theorem plot_trace (b : PlotArgs) (s : List (List ℚ × List ℚ))
    (z : ℕ → Bool → ℕ → ℚ) (hv : validate_plot b = .ok s) :
    plot b z =
      (Effect.subplots ::
          (plot_loop b.fill_error b.jitter_x b.jitter_y z
            (s.zip (b.series_errs.getD (List.replicate s.length none))) 0).1,
        (plot_loop b.fill_error b.jitter_x b.jitter_y z
          (s.zip (b.series_errs.getD (List.replicate s.length none))) 0).2) := by
  unfold plot
  rw [hv]

/-- With both jitter scales at their `-1` sentinel, one loop iteration
draws the original coordinates and consumes no noise. -/
theorem plot_series_effects_noJitter (f : Bool) (idx : ℕ)
    (sv : List ℚ × List ℚ) (err : Option (List ℚ)) (zx zy : ℕ → ℚ) :
    plot_series_effects f (-1) (-1) idx sv err zx zy
      = some (Effect.plotLine idx sv.1 sv.2 ::
          (match err with
           | none => []
           | some _ =>
             if f then [Effect.shadedError idx sv.1 sv.2]
             else [Effect.errorbar idx sv.1 sv.2])) := by
  unfold plot_series_effects jitterVals
  simp

/-- The whole series loop is noise-independent when neither axis is
jittered. -/
theorem plot_loop_noJitter_z (f : Bool) (z z' : ℕ → Bool → ℕ → ℚ)
    (l : List ((List ℚ × List ℚ) × Option (List ℚ))) (start : ℕ) :
    plot_loop f (-1) (-1) z l start = plot_loop f (-1) (-1) z' l start := by
  induction l generalizing start with
  | nil => rfl
  | cons q rest ih =>
    rw [plot_loop, plot_loop, plot_series_effects_noJitter,
      plot_series_effects_noJitter]
    dsimp only
    rw [ih (start + 1)]

/-- The series loop never fails when neither axis is jittered. -/
theorem plot_loop_noJitter_ok (f : Bool) (z : ℕ → Bool → ℕ → ℚ)
    (l : List ((List ℚ × List ℚ) × Option (List ℚ))) (start : ℕ) :
    (plot_loop f (-1) (-1) z l start).2 = .ok () := by
  induction l generalizing start with
  | nil => rfl
  | cons q rest ih =>
    rw [plot_loop, plot_series_effects_noJitter]
    dsimp only
    exact ih (start + 1)

/-- The line-drawing predicate only matches effects of its series. -/
theorem isLineOf_tag (i : ℕ) (e : Effect) (h : Effect.isLineOf i e = true) :
    e.tag = some i := by
  cases e <;> simp_all [Effect.isLineOf, Effect.tag]

/-- The error-rendering predicate only matches effects of its series. -/
theorem isErrOf_tag (i : ℕ) (e : Effect) (h : Effect.isErrOf i e = true) :
    e.tag = some i := by
  cases e <;> simp_all [Effect.isErrOf, Effect.tag]

/-- C7: with `jitter_x == -1` and `jitter_y == -1`, `plot` samples no
noise (its outcome is the same for every noise source) and, for every
series, the drawing primitive receives exactly the original x and y
coordinate sequences. -/
theorem noJitter_exact (b : PlotArgs) (z z' : ℕ → Bool → ℕ → ℚ)
    (s : List (List ℚ × List ℚ))
    (hx : b.jitter_x = -1) (hy : b.jitter_y = -1)
    (hv : validate_plot b = .ok s) :
    plot b z = plot b z' ∧
    (plot b z).2 = .ok () ∧
    ∀ i, (hi : i < s.length) →
      (plot b z).1.filter (Effect.isLineOf i) =
        [Effect.plotLine i (s.get ⟨i, hi⟩).1 (s.get ⟨i, hi⟩).2] := by
  obtain ⟨hbs, h0, herr⟩ := validate_plot_ok_facts b s hv
  have hok : (plot_loop b.fill_error b.jitter_x b.jitter_y z
      (s.zip (b.series_errs.getD (List.replicate s.length none))) 0).2 = .ok () := by
    rw [hx, hy]
    exact plot_loop_noJitter_ok _ _ _ _
  refine ⟨?_, ?_, ?_⟩
  · rw [plot_trace b s z hv, plot_trace b s z' hv, hx, hy,
      plot_loop_noJitter_z b.fill_error z z'
        (s.zip (b.series_errs.getD (List.replicate s.length none))) 0]
  · rw [plot_trace b s z hv]
    exact hok
  · intro i hi
    have hfilter := plot_loop_filter (Effect.isLineOf i) i (isLineOf_tag i)
      b.fill_error b.jitter_x b.jitter_y z
      (s.zip (b.series_errs.getD (List.replicate s.length none))) 0 hok
    have hierr : i < (b.series_errs.getD (List.replicate s.length none)).length := by
      omega
    have hzi : (s.zip (b.series_errs.getD (List.replicate s.length none)))[i]?
        = some (s.get ⟨i, hi⟩,
            (b.series_errs.getD (List.replicate s.length none)).get ⟨i, hierr⟩) := by
      apply List.getElem?_zip_eq_some.mpr
      exact ⟨List.getElem?_eq_getElem hi, List.getElem?_eq_getElem hierr⟩
    rw [plot_trace b s z hv]
    dsimp only
    rw [List.filter_cons, if_neg (by simp [Effect.isLineOf])]
    rw [hfilter, if_pos (Nat.zero_le i), Nat.sub_zero, hzi]
    simp only [Option.elim]
    rw [hx, hy, plot_series_effects_noJitter]
    cases (b.series_errs.getD (List.replicate s.length none)).get ⟨i, hierr⟩ with
    | none => simp [Effect.isLineOf]
    | some ev => cases b.fill_error <;> simp [Effect.isLineOf]

/-- Witness for C7: a defaulted line call draws its single series at the
original coordinates. -/
theorem noJitter_exact_witness :
    (plot exPlot z0).1.filter (Effect.isLineOf 0)
      = [Effect.plotLine 0 [1, 2] [3, 4]] := by
  have h := (noJitter_exact exPlot z0 z0 [([1, 2], [3, 4])] rfl rfl rfl).2.2 0
    (by norm_num)
  simpa using h

/-- With `jitter_x = 0` the x draw is a zero-variance normal around the
x values: when the x and y sequences have equal length it returns the x
values unchanged. -/
theorem plot_series_effects_jitterZero (f : Bool) (idx : ℕ)
    (sv : List ℚ × List ℚ) (err : Option (List ℚ)) (zx zy : ℕ → ℚ)
    (hlen : sv.1.length = sv.2.length) :
    plot_series_effects f 0 (-1) idx sv err zx zy
      = some (Effect.plotLine idx sv.1 sv.2 ::
          (match err with
           | none => []
           | some _ =>
             if f then [Effect.shadedError idx sv.1 sv.2]
             else [Effect.errorbar idx sv.1 sv.2])) := by
  unfold plot_series_effects jitterVals
  rw [if_pos (⟨by norm_num, rfl⟩ : (0 : ℚ) ≠ -1 ∧ (-1 : ℚ) = -1)]
  rw [← hlen, numpy_random_normal_zero]
  rfl

/-- The series loop never fails under zero-variance x jitter when every
series has matching coordinate lengths. -/
theorem plot_loop_jitterZero_ok (f : Bool) (z : ℕ → Bool → ℕ → ℚ)
    (l : List ((List ℚ × List ℚ) × Option (List ℚ))) (start : ℕ)
    (h : ∀ q ∈ l, ((q : (List ℚ × List ℚ) × Option (List ℚ))).1.1.length
          = q.1.2.length) :
    (plot_loop f 0 (-1) z l start).2 = .ok () := by
  induction l generalizing start with
  | nil => rfl
  | cons q rest ih =>
    rw [plot_loop, plot_series_effects_jitterZero f start q.1 q.2 _ _
      (h q (List.mem_cons_self q rest))]
    dsimp only
    exact ih (start + 1) (fun r hr => h r (List.mem_cons_of_mem _ hr))

/-- C8: with `jitter_x = 0.0` and `jitter_y` at its `-1` sentinel, the
zero-variance normal samples collapse to their means, so for every noise
source the drawing primitive receives exactly the original coordinates of
every series (whose x and y sequences have matching lengths). -/
theorem jitterZero_exact (b : PlotArgs) (z : ℕ → Bool → ℕ → ℚ)
    (s : List (List ℚ × List ℚ))
    (hx : b.jitter_x = 0) (hy : b.jitter_y = -1)
    (hv : validate_plot b = .ok s)
    (hlen : ∀ q ∈ s, ((q : List ℚ × List ℚ)).1.length = q.2.length) :
    (plot b z).2 = .ok () ∧
    ∀ i, (hi : i < s.length) →
      (plot b z).1.filter (Effect.isLineOf i) =
        [Effect.plotLine i (s.get ⟨i, hi⟩).1 (s.get ⟨i, hi⟩).2] := by
  obtain ⟨hbs, h0, herr⟩ := validate_plot_ok_facts b s hv
  have hok : (plot_loop b.fill_error b.jitter_x b.jitter_y z
      (s.zip (b.series_errs.getD (List.replicate s.length none))) 0).2 = .ok () := by
    rw [hx, hy]
    exact plot_loop_jitterZero_ok _ _ _ _
      (fun q hq => hlen q.1 (List.of_mem_zip hq).1)
  refine ⟨?_, ?_⟩
  · rw [plot_trace b s z hv]
    exact hok
  · intro i hi
    have hfilter := plot_loop_filter (Effect.isLineOf i) i (isLineOf_tag i)
      b.fill_error b.jitter_x b.jitter_y z
      (s.zip (b.series_errs.getD (List.replicate s.length none))) 0 hok
    have hierr : i < (b.series_errs.getD (List.replicate s.length none)).length := by
      omega
    have hzi : (s.zip (b.series_errs.getD (List.replicate s.length none)))[i]?
        = some (s.get ⟨i, hi⟩,
            (b.series_errs.getD (List.replicate s.length none)).get ⟨i, hierr⟩) := by
      apply List.getElem?_zip_eq_some.mpr
      exact ⟨List.getElem?_eq_getElem hi, List.getElem?_eq_getElem hierr⟩
    rw [plot_trace b s z hv]
    dsimp only
    rw [List.filter_cons, if_neg (by simp [Effect.isLineOf])]
    rw [hfilter, if_pos (Nat.zero_le i), Nat.sub_zero, hzi]
    simp only [Option.elim]
    rw [hx, hy, plot_series_effects_jitterZero _ _ _ _ _ _
      (hlen (s.get ⟨i, hi⟩) (List.get_mem s i hi))]
    cases (b.series_errs.getD (List.replicate s.length none)).get ⟨i, hierr⟩ with
    | none => simp [Effect.isLineOf]
    | some ev => cases b.fill_error <;> simp [Effect.isLineOf]

/-- Witness for C8: zero-variance x jitter leaves the coordinates of the
single series unchanged. -/
theorem jitterZero_exact_witness :
    (plot exPlotJitter0 z0).1.filter (Effect.isLineOf 0)
      = [Effect.plotLine 0 [1, 2] [3, 4]] := by
  have h := (jitterZero_exact exPlotJitter0 z0 [([1, 2], [3, 4])] rfl rfl rfl
    (by intro q hq; rw [List.mem_singleton] at hq; subst hq; rfl)).2 0 (by norm_num)
  simpa using h

/-- A successful series loop means every iteration produced its effects. -/
theorem plot_loop_ok_pse (f : Bool) (jx jy : ℚ) (z : ℕ → Bool → ℕ → ℚ)
    (l : List ((List ℚ × List ℚ) × Option (List ℚ))) (start : ℕ)
    (hok : (plot_loop f jx jy z l start).2 = .ok ()) :
    ∀ k, (hk : k < l.length) →
      ∃ es, plot_series_effects f jx jy (start + k) (l.get ⟨k, hk⟩).1
        (l.get ⟨k, hk⟩).2 (z (start + k) false) (z (start + k) true) = some es := by
  induction l generalizing start with
  | nil => intro k hk; simp at hk
  | cons q rest ih =>
    rw [plot_loop] at hok
    cases hpse : plot_series_effects f jx jy start q.1 q.2
        (z start false) (z start true) with
    | none => rw [hpse] at hok; simp at hok
    | some es =>
      rw [hpse] at hok
      dsimp only at hok
      intro k hk
      cases k with
      | zero => exact ⟨es, by simpa using hpse⟩
      | succ k0 =>
        have hres := ih (start + 1) hok k0 (by simpa using hk)
        have harith : (start + 1) + k0 = start + (k0 + 1) := by omega
        rw [harith] at hres
        exact hres

/-- C9: in a successful `plot` call, a series whose error values are
`None` receives no error rendering, and a series with error values
receives exactly one: a shaded band when `fill_error` is set, discrete
error bars otherwise — never both. -/
theorem error_rendering_exclusive (b : PlotArgs) (z : ℕ → Bool → ℕ → ℚ)
    (s : List (List ℚ × List ℚ))
    (hv : validate_plot b = .ok s)
    (hok : (plot b z).2 = .ok ()) (i : ℕ) (hi : i < s.length) :
    ((b.series_errs.getD (List.replicate s.length none)).getD i none = none →
      (plot b z).1.filter (Effect.isErrOf i) = []) ∧
    (∀ ev,
      (b.series_errs.getD (List.replicate s.length none)).getD i none = some ev →
      ∃ xv yv, (plot b z).1.filter (Effect.isErrOf i) =
        [if b.fill_error then Effect.shadedError i xv yv
         else Effect.errorbar i xv yv]) := by
  obtain ⟨hbs, h0, herr⟩ := validate_plot_ok_facts b s hv
  have hok2 : (plot_loop b.fill_error b.jitter_x b.jitter_y z
      (s.zip (b.series_errs.getD (List.replicate s.length none))) 0).2 = .ok () := by
    rw [plot_trace b s z hv] at hok
    exact hok
  have hierr : i < (b.series_errs.getD (List.replicate s.length none)).length := by
    omega
  have hzlen : i < (s.zip (b.series_errs.getD (List.replicate s.length none))).length := by
    rw [List.length_zip]
    omega
  have hget : (s.zip (b.series_errs.getD (List.replicate s.length none))).get ⟨i, hzlen⟩
      = (s.get ⟨i, hi⟩,
          (b.series_errs.getD (List.replicate s.length none)).get ⟨i, hierr⟩) := by
    have hzi : (s.zip (b.series_errs.getD (List.replicate s.length none)))[i]?
        = some (s.get ⟨i, hi⟩,
            (b.series_errs.getD (List.replicate s.length none)).get ⟨i, hierr⟩) := by
      apply List.getElem?_zip_eq_some.mpr
      exact ⟨List.getElem?_eq_getElem hi, List.getElem?_eq_getElem hierr⟩
    rw [List.getElem?_eq_getElem hzlen] at hzi
    exact Option.some.inj hzi
  obtain ⟨es, hpse⟩ := plot_loop_ok_pse b.fill_error b.jitter_x b.jitter_y z
    (s.zip (b.series_errs.getD (List.replicate s.length none))) 0 hok2 i hzlen
  rw [Nat.zero_add, hget] at hpse
  have hgd : (b.series_errs.getD (List.replicate s.length none)).getD i none
      = (b.series_errs.getD (List.replicate s.length none)).get ⟨i, hierr⟩ := by
    rw [List.getD_eq_getElem?_getD, List.getElem?_eq_getElem hierr]
    rfl
  have hfilter := plot_loop_filter (Effect.isErrOf i) i (isErrOf_tag i)
    b.fill_error b.jitter_x b.jitter_y z
    (s.zip (b.series_errs.getD (List.replicate s.length none))) 0 hok2
  have htr : (plot b z).1.filter (Effect.isErrOf i) = es.filter (Effect.isErrOf i) := by
    rw [plot_trace b s z hv]
    dsimp only
    rw [List.filter_cons, if_neg (by simp [Effect.isErrOf])]
    rw [hfilter, if_pos (Nat.zero_le i), Nat.sub_zero,
      List.getElem?_eq_getElem hzlen]
    simp only [Option.elim]
    rw [show (s.zip (b.series_errs.getD (List.replicate s.length none)))[i]
          = (s.zip (b.series_errs.getD (List.replicate s.length none))).get ⟨i, hzlen⟩
        from rfl, hget, hpse]
    rfl
  obtain ⟨xy, hj, hes⟩ :
      ∃ xy, jitterVals b.jitter_x b.jitter_y (s.get ⟨i, hi⟩).1 (s.get ⟨i, hi⟩).2
          (z i false) (z i true) = some xy ∧
        es = Effect.plotLine i xy.1 xy.2 ::
          (match (b.series_errs.getD (List.replicate s.length none)).get ⟨i, hierr⟩ with
           | none => []
           | some _ =>
             if b.fill_error then [Effect.shadedError i xy.1 xy.2]
             else [Effect.errorbar i xy.1 xy.2]) := by
    unfold plot_series_effects at hpse
    cases hj : jitterVals b.jitter_x b.jitter_y (s.get ⟨i, hi⟩).1 (s.get ⟨i, hi⟩).2
        (z i false) (z i true) with
    | none => rw [hj] at hpse; simp at hpse
    | some xy =>
      rw [hj] at hpse
      simp only [Option.map_some'] at hpse
      exact ⟨xy, rfl, (Option.some.inj hpse).symm⟩
  constructor
  · intro hnone
    rw [hgd] at hnone
    rw [htr, hes, hnone]
    cases b.fill_error <;> simp [Effect.isErrOf]
  · intro ev hev
    rw [hgd] at hev
    refine ⟨xy.1, xy.2, ?_⟩
    rw [htr, hes, hev]
    cases b.fill_error <;> simp [Effect.isErrOf]

/-- Witness for C9: the single series of `exPlotErr` carries error values
and `fill_error` defaults to true, so exactly one shaded band is drawn. -/
theorem error_rendering_exclusive_witness :
    ∃ xv yv, (plot exPlotErr z0).1.filter (Effect.isErrOf 0) =
      [if exPlotErr.fill_error then Effect.shadedError 0 xv yv
       else Effect.errorbar 0 xv yv] :=
  (error_rendering_exclusive exPlotErr z0 [([1, 2], [3, 4])] rfl rfl 0
    (by norm_num)).2 [1, 1] rfl

/-- C10: in the jitter block of `plot`, whenever x jitter is applied the
number of jittered x samples equals the length of the y-value sequence of
the series (the x draw uses `size=len(yvals)`), and symmetrically the y
draw uses `size=len(xvals)`; so when the two sequences have different
lengths the jittered array takes the length of the opposite sequence. -/
theorem jitter_sample_counts (jx jy : ℚ) (xv yv xs ys : List ℚ)
    (zx zy : ℕ → ℚ)
    (hj : jitterVals jx jy xv yv zx zy = some (xs, ys)) :
    (jx ≠ -1 → xs.length = yv.length) ∧ (jy ≠ -1 → ys.length = xv.length) := by
  unfold jitterVals at hj
  split_ifs at hj with h1 h2 h3
  · cases hn : numpy_random_normal xv jx yv.length zx with
    | none => rw [hn] at hj; simp at hj
    | some r =>
      rw [hn] at hj
      simp only [Option.map_some'] at hj
      injection hj with hj
      injection hj with hxs hys
      subst hxs
      subst hys
      exact ⟨fun _ => numpy_random_normal_length _ _ _ _ _ hn,
        fun hy => absurd h1.2 hy⟩
  · cases hn : numpy_random_normal yv jy xv.length zy with
    | none => rw [hn] at hj; simp at hj
    | some r =>
      rw [hn] at hj
      simp only [Option.map_some'] at hj
      injection hj with hj
      injection hj with hxs hys
      subst hxs
      subst hys
      exact ⟨fun hx => absurd hx (not_not.mpr h2.1),
        fun _ => numpy_random_normal_length _ _ _ _ _ hn⟩
  · cases hn1 : numpy_random_normal xv jx yv.length zx with
    | none => rw [hn1] at hj; simp at hj
    | some r1 =>
      cases hn2 : numpy_random_normal yv jy xv.length zy with
      | none => rw [hn1, hn2] at hj; simp at hj
      | some r2 =>
        rw [hn1, hn2] at hj
        injection hj with hj
        injection hj with hxs hys
        subst hxs
        subst hys
        exact ⟨fun _ => numpy_random_normal_length _ _ _ _ _ hn1,
          fun _ => numpy_random_normal_length _ _ _ _ _ hn2⟩
  · refine ⟨fun hx => ?_, fun hy => ?_⟩
    · by_cases hyy : jy = -1
      · exact absurd ⟨hx, hyy⟩ h1
      · exact absurd ⟨hx, hyy⟩ h3
    · by_cases hxx : jx = -1
      · exact absurd ⟨hxx, hy⟩ h2
      · exact absurd ⟨hxx, hy⟩ h3

/-- Witness for C10: jittering a length-1 x sequence against a length-3 y
sequence yields 3 x samples. -/
theorem jitter_sample_counts_witness :
    ([5, 5, 5] : List ℚ).length = ([1, 2, 3] : List ℚ).length :=
  (jitter_sample_counts 1 (-1) [5] [1, 2, 3] [5, 5, 5] [1, 2, 3]
    zstream zstream
    (by norm_num [jitterVals, numpy_random_normal, zstream, List.range_succ])).1
    (by norm_num)

end MakePlots
